import Mathlib

/-!
Shallow embedding of two esphome-core sensor drivers:

* `MHZ19Component` (mhz19_component.cpp) — a CO₂ sensor driven over a
  streaming UART-style byte bus with checksummed 9-byte frames.
* `TSL2561Sensor` (tsl2561_sensor.cpp) — an illuminance sensor driven over an
  addressed register bus with a two-channel photometric calibration formula.

Modelling conventions:

* Machine bytes (`uint8_t`) are `Nat` values; every read of a byte from a
  frame list goes through `byteAt`, which truncates `% 256` exactly as the
  `uint8_t` array element type does in the source.
* `float` arithmetic is modelled over `ℚ` (exact decimal literals).  The one
  place where nonfinite float behaviour is observable — the ratio
  `ch1 / ch0` of the TSL2561 lux formula, which can be `+inf` or `NaN` when
  `ch0 == 0` — is modelled explicitly by the `FloatRatio` type, whose order
  relation makes every `<` comparison against a finite threshold false for
  `+inf` and `NaN`, as IEEE 754 does.
* `powf (ratio, 1.4f)` is kept abstract as a parameter `pw : ℚ → ℚ`; it is
  only ever applied to finite ratios.
* Bus transactions are modelled by their outcomes: a fallible read is an
  `Option` input to the function under verification, and the driver's observable
  effects (status flags, published measurements, scheduled callbacks, register
  writes) are returned as explicit data.
-/

namespace EsphomeCore

/-- Reads byte `i` of a wire frame; frames are arrays of `uint8_t`, so the
value is truncated to 8 bits. -/
def byteAt (r : List Nat) (i : Nat) : Nat := r.getD i 0 % 256

/-! ## MH-Z19 CO₂ sensor (mhz19_component.cpp) -/

/-- MHZ19_REQUEST_LENGTH -/
def MHZ19_REQUEST_LENGTH : Nat := 8

/-- MHZ19_RESPONSE_LENGTH -/
def MHZ19_RESPONSE_LENGTH : Nat := 9

/-- MHZ19_COMMAND_GET_PPM -/
def MHZ19_COMMAND_GET_PPM : List Nat := [0xFF, 0x01, 0x86, 0x00, 0x00, 0x00, 0x00, 0x00]

/-- MHZ19_COMMAND_ABC_DISABLE -/
def MHZ19_COMMAND_ABC_DISABLE : List Nat := [0xFF, 0x01, 0x79, 0x00, 0x00, 0x00, 0x00, 0x00, 0x86]

/-- `mhz19_checksum`: `uint8_t sum = 0; for (i = 1; i < 8; i++) sum += command[i];
return 0xFF - sum + 0x01;` — the accumulator is a `uint8_t`, hence the `% 256`
at every step; the final expression is computed in `int` and truncated back to
`uint8_t` on return. -/
def mhz19_checksum (command : List Nat) : Nat :=
  let sum := (List.range 7).foldl (fun sum i => (sum + byteAt command (i + 1)) % 256) 0
  (0xFF - sum + 0x01) % 256

/-- The bytes put on the wire by `MHZ19Component::mhz19_write_command_`:
`write_array(command, MHZ19_REQUEST_LENGTH)` followed by
`write_byte(mhz19_checksum(command))`. -/
def mhz19_write_command_frame (command : List Nat) : List Nat :=
  command.take MHZ19_REQUEST_LENGTH ++ [mhz19_checksum command]

/-- The mutable driver state of `MHZ19Component` touched by `update`:
the sticky `model_b` and `abc_disabled` members and the warning status bit
(`status_set_warning` / `status_clear_warning`). -/
structure MHZ19State where
  model_b : Bool
  abc_disabled : Bool
  warning : Bool
deriving DecidableEq, Repr

/-- Observable outcome of one `MHZ19Component::update` call: the state after
the call, the CO₂ ppm published to `co2_sensor_` (if any) and the temperature
published to `temperature_sensor_` (if any). -/
structure MHZ19CycleResult where
  state : MHZ19State
  co2 : Option Nat
  temperature : Option Int
deriving DecidableEq, Repr

/-- `MHZ19Component::update`.  `response` is the outcome of the GET_PPM
exchange (`none` when `mhz19_write_command_` returned false, i.e. the 9-byte
response could not be read); `abc_ack_ok` is the outcome of the ABC-disable
exchange, consulted only when that command is actually sent;
`has_temperature_sensor` models `temperature_sensor_ != nullptr`.
The control flow mirrors the source's early returns:
read failure → warning; bad preamble → warning; `u == 15000` → silent return;
variant detection (`response[5] == 0` sets `model_b`); ABC-disable sub-step
(silent return on ack failure, else `abc_disabled = true`); checksum mismatch
→ warning; else clear warning and publish. -/
def MHZ19Component.update (s : MHZ19State) (response : Option (List Nat))
    (abc_ack_ok : Bool) (has_temperature_sensor : Bool) : MHZ19CycleResult :=
  match response with
  | none => ⟨{ s with warning := true }, none, none⟩
  | some r =>
    if byteAt r 0 ≠ 0xFF ∨ byteAt r 1 ≠ 0x86 then
      ⟨{ s with warning := true }, none, none⟩
    else
      -- uint16_t u = (response[6] << 8) + response[7]
      let u := (byteAt r 6 <<< 8) + byteAt r 7
      if u = 15000 then
        ⟨s, none, none⟩
      else
        -- if (response[5] == 0 && this->model_b == false) this->model_b = true
        let s1 := if byteAt r 5 = 0 ∧ s.model_b = false then { s with model_b := true } else s
        if s1.model_b = true ∧ s1.abc_disabled = false ∧ abc_ack_ok = false then
          ⟨s1, none, none⟩
        else
          let s2 := if s1.model_b = true ∧ s1.abc_disabled = false then
            { s1 with abc_disabled := true } else s1
          if byteAt r 8 ≠ mhz19_checksum r then
            ⟨{ s2 with warning := true }, none, none⟩
          else
            ⟨{ s2 with warning := false },
              some ((byteAt r 2 <<< 8) ||| byteAt r 3),
              if has_temperature_sensor then some ((byteAt r 4 : Int) - 40) else none⟩

/-- Folds `MHZ19Component.update` over a list of per-cycle inputs
(response, abc_ack_ok, has_temperature_sensor), keeping only the state —
the scheduler invoking `update` once per polling interval. -/
def MHZ19Component.run_updates (s : MHZ19State)
    (cycles : List (Option (List Nat) × Bool × Bool)) : MHZ19State :=
  cycles.foldl (fun st c => (MHZ19Component.update st c.1 c.2.1 c.2.2).state) s

/-! ## TSL2561 illuminance sensor (tsl2561_sensor.cpp) -/

/-- TSL2561_REGISTER_CONTROL -/
def TSL2561_REGISTER_CONTROL : Nat := 0x00

/-- TSL2561_REGISTER_TIMING -/
def TSL2561_REGISTER_TIMING : Nat := 0x01

/-- `TSL2561Gain` (tsl2561_sensor.h): TSL2561_GAIN_1X and TSL2561_GAIN_16X. -/
inductive TSL2561Gain
  | gain_1x
  | gain_16x
deriving DecidableEq, Repr

/-- `TSL2561IntegrationTime` values are the 2-bit INTEG field codes written to
the timing register; modelled as the underlying integer so that the `& 0b11`
masking and the `switch` default case are expressible. -/
def TSL2561_INTEGRATION_14MS : Nat := 0b00

/-- TSL2561_INTEGRATION_101MS -/
def TSL2561_INTEGRATION_101MS : Nat := 0b01

/-- TSL2561_INTEGRATION_402MS -/
def TSL2561_INTEGRATION_402MS : Nat := 0b10

/-- `TSL2561Sensor::get_integration_time_ms_`: switch over the integration
time enum, with 0.0 for any value outside the three cases. -/
def TSL2561Sensor.get_integration_time_ms (integration_time : Nat) : ℚ :=
  if integration_time = TSL2561_INTEGRATION_14MS then 13.7
  else if integration_time = TSL2561_INTEGRATION_101MS then 100.0
  else if integration_time = TSL2561_INTEGRATION_402MS then 402.0
  else 0.0

/-- Outcome of `TSL2561Sensor::setup`: either `mark_failed` was called (and
nothing was written), or the rewritten timing byte was written back to
TSL2561_REGISTER_TIMING. -/
inductive TSL2561SetupResult
  | failed
  | wroteTiming (value : Nat)
deriving DecidableEq, Repr

/-- `TSL2561Sensor::setup`.  `timing_read` is the outcome of
`read_byte(TSL2561_REGISTER_TIMING, &timing)` (`none` = no acknowledge).
The byte surgery is verbatim from the source:
`timing &= ~0b00010000;`
`timing |= gain_ == TSL2561_GAIN_16X ? 0b0001000 : 0;`
`timing &= ~0b00000011;`
`timing |= integration_time_ & 0b11;`
(note the clear mask is bit 4 while the gain OR constant is bit 3). -/
def TSL2561Sensor.setup (gain : TSL2561Gain) (integration_time : Nat)
    (timing_read : Option Nat) : TSL2561SetupResult :=
  match timing_read with
  | none => .failed
  | some timing =>
    let timing := timing % 256
    let timing := timing &&& (255 - 0b00010000)
    let timing := timing ||| (if gain = .gain_16x then 0b0001000 else 0)
    let timing := timing &&& (255 - 0b00000011)
    let timing := timing ||| (integration_time &&& 0b11)
    .wroteTiming timing

/-- Observable effects of `TSL2561Sensor::update`: the power-on register
write, and the single deferred callback installed by
`set_timeout("illuminance", timeout, ...)`. -/
structure TSL2561UpdateEffect where
  control_write : Nat × Nat
  timeout_key : String
  timeout_ms : Nat
deriving DecidableEq, Repr

/-- `TSL2561Sensor::update`: write 0b11 to the control register, then
schedule one callback under key "illuminance" after
`uint32_t timeout = get_integration_time_ms_() + 20.0f;` — the float sum is
truncated toward zero by the conversion to `uint32_t` (the operand is
nonnegative, so truncation toward zero is the floor). -/
def TSL2561Sensor.update (integration_time : Nat) : TSL2561UpdateEffect :=
  { control_write := (TSL2561_REGISTER_CONTROL, 0b00000011)
    timeout_key := "illuminance"
    timeout_ms := (⌊TSL2561Sensor.get_integration_time_ms integration_time + 20⌋).toNat }

/-- The IEEE float value `d1 / d0` as observed by the lux formula's branch
comparisons: finite, `+inf` (positive numerator over zero) or `NaN`
(zero over zero).  Channel counts are nonnegative, so `-inf` cannot arise. -/
inductive FloatRatio
  | fin (q : ℚ)
  | posInf
  | nan
deriving DecidableEq, Repr

/-- Float division of the two (nonnegative) channel values. -/
def floatDiv (d1 d0 : ℚ) : FloatRatio :=
  if d0 = 0 then (if d1 = 0 then .nan else .posInf) else .fin (d1 / d0)

/-- IEEE `<` against a finite threshold: false for `+inf` and for `NaN`. -/
def FloatRatio.lt (r : FloatRatio) (c : ℚ) : Bool :=
  match r with
  | .fin q => decide (q < c)
  | .posInf => false
  | .nan => false

/-- The finite value of a ratio (the lux formula only applies `powf` to a
ratio after a `<` comparison has succeeded, hence only to finite ratios). -/
def FloatRatio.toQ (r : FloatRatio) : ℚ :=
  match r with
  | .fin q => q
  | .posInf => 0
  | .nan => 0

/-- `TSL2561Sensor::calculate_lx_`.  `pw r` stands for `powf(r, 1.4f)`.
Returns `none` for the source's `NAN` saturation result, `some lx` otherwise.
Mirrors the source: saturation sentinel check, raw ratio, scaling by
`402.0 / ms`, 16× normalisation for the 1x gain, then the package-specific
piecewise formula keyed on strict ratio thresholds. -/
def TSL2561Sensor.calculate_lx (pw : ℚ → ℚ) (gain : TSL2561Gain)
    (integration_time : Nat) (package_cs : Bool) (ch0 ch1 : Nat) : Option ℚ :=
  if ch0 = 0xFFFF ∨ ch1 = 0xFFFF then none
  else
    let d0 : ℚ := ch0
    let d1 : ℚ := ch1
    let ratio := floatDiv d1 d0
    let ms := TSL2561Sensor.get_integration_time_ms integration_time
    let d0 := d0 * (402.0 / ms)
    let d1 := d1 * (402.0 / ms)
    let d0 := if gain = .gain_1x then d0 * 16 else d0
    let d1 := if gain = .gain_1x then d1 * 16 else d1
    if package_cs then
      if ratio.lt 0.52 then some (0.0315 * d0 - 0.0593 * d0 * pw ratio.toQ)
      else if ratio.lt 0.65 then some (0.0229 * d0 - 0.0291 * d1)
      else if ratio.lt 0.80 then some (0.0157 * d0 - 0.0153 * d1)
      else if ratio.lt 1.30 then some (0.00338 * d0 - 0.00260 * d1)
      else some 0.0
    else
      if ratio.lt 0.5 then some (0.0304 * d0 - 0.062 * d0 * pw ratio.toQ)
      else if ratio.lt 0.61 then some (0.0224 * d0 - 0.031 * d1)
      else if ratio.lt 0.80 then some (0.0128 * d0 - 0.0153 * d1)
      else if ratio.lt 1.30 then some (0.00146 * d0 - 0.00112 * d1)
      else some 0.0

end EsphomeCore

namespace EsphomeCore

/-! ## Theorems -/

/-- Claim C5: if either raw channel equals the saturation sentinel 0xFFFF, the
lux calculation returns the invalid value (the source's NaN, modelled as
`none`), regardless of the other channel, gain, integration time or package
variant. -/
theorem tsl2561_lux_saturation_invalid (pw : ℚ → ℚ) (gain : TSL2561Gain)
    (integration_time : Nat) (package_cs : Bool) (ch0 ch1 : Nat)
    (h : ch0 = 0xFFFF ∨ ch1 = 0xFFFF) :
    TSL2561Sensor.calculate_lx pw gain integration_time package_cs ch0 ch1 = none := by
  unfold TSL2561Sensor.calculate_lx
  rw [if_pos h]

/-- Witness for claim C5 at ch0 = 0xFFFF, ch1 = 300. -/
theorem tsl2561_lux_saturation_invalid_witness :
    TSL2561Sensor.calculate_lx (fun q => q) .gain_16x TSL2561_INTEGRATION_402MS false 0xFFFF 300
      = none :=
  tsl2561_lux_saturation_invalid _ _ _ _ _ _ (Or.inl rfl)

/-- Claim C10: with ch0 = 0 and ch1 not saturated, the ratio is the IEEE
nonfinite value +inf (or NaN when ch1 = 0), every strict threshold comparison
is false, and the calculation totals out to 0.0 — no crash. -/
theorem tsl2561_lux_zero_ch0 (pw : ℚ → ℚ) (gain : TSL2561Gain)
    (integration_time : Nat) (package_cs : Bool) (ch1 : Nat) (h : ch1 ≠ 0xFFFF) :
    TSL2561Sensor.calculate_lx pw gain integration_time package_cs 0 ch1 = some 0.0
    ∧ floatDiv (ch1 : ℚ) ((0 : Nat) : ℚ)
        = (if ch1 = 0 then FloatRatio.nan else FloatRatio.posInf) := by
  constructor
  · unfold TSL2561Sensor.calculate_lx
    rw [if_neg (by simp [h])]
    by_cases hc : ch1 = 0 <;>
      simp [floatDiv, FloatRatio.lt, hc]
  · by_cases hc : ch1 = 0 <;> simp [floatDiv, hc]

/-- Witness for claim C10 at ch1 = 300. -/
theorem tsl2561_lux_zero_ch0_witness :
    TSL2561Sensor.calculate_lx (fun q => q) .gain_1x TSL2561_INTEGRATION_14MS true 0 300 = some 0.0
    ∧ floatDiv ((300 : Nat) : ℚ) ((0 : Nat) : ℚ) = FloatRatio.posInf := by
  have h := tsl2561_lux_zero_ch0 (fun q => q) .gain_1x TSL2561_INTEGRATION_14MS true 300
    (by decide)
  exact ⟨h.1, by simpa using h.2⟩

/-- Claim C6: the MH-Z19 checksum of a frame is `0xFF − (sum of bytes 1..7 mod
256) + 1` in 8-bit arithmetic, and a request frame whose 9th byte was appended
by `mhz19_write_command_` always validates against the same function, i.e. the
wire frame's byte 8 equals the checksum recomputed over the wire frame. -/
theorem mhz19_checksum_formula_roundtrip (b0 b1 b2 b3 b4 b5 b6 b7 : Nat)
    (h1 : b1 < 256) (h2 : b2 < 256) (h3 : b3 < 256) (h4 : b4 < 256)
    (h5 : b5 < 256) (h6 : b6 < 256) (h7 : b7 < 256) :
    mhz19_checksum [b0, b1, b2, b3, b4, b5, b6, b7]
      = (0xFF - (b1 + b2 + b3 + b4 + b5 + b6 + b7) % 256 + 0x01) % 256
    ∧ byteAt (mhz19_write_command_frame [b0, b1, b2, b3, b4, b5, b6, b7]) 8
      = mhz19_checksum (mhz19_write_command_frame [b0, b1, b2, b3, b4, b5, b6, b7]) := by
  constructor
  · simp only [mhz19_checksum, byteAt, List.range_succ, List.range_zero, List.foldl_nil,
      List.foldl_cons, List.foldl_append, List.getD_cons_succ, List.getD_cons_zero]
    omega
  · simp only [mhz19_write_command_frame, MHZ19_REQUEST_LENGTH, mhz19_checksum, byteAt,
      List.take_succ_cons, List.take_zero, List.cons_append, List.nil_append,
      List.range_succ, List.range_zero, List.foldl_nil, List.foldl_cons, List.foldl_append,
      List.getD_cons_succ, List.getD_cons_zero]
    omega

/-- Witness for claim C6 at the GET_PPM command bytes (checksum 0x79). -/
theorem mhz19_checksum_formula_roundtrip_witness :
    mhz19_checksum [0xFF, 0x01, 0x86, 0x00, 0x00, 0x00, 0x00, 0x00]
      = (0xFF - (0x01 + 0x86 + 0x00 + 0x00 + 0x00 + 0x00 + 0x00) % 256 + 0x01) % 256
    ∧ byteAt (mhz19_write_command_frame [0xFF, 0x01, 0x86, 0x00, 0x00, 0x00, 0x00, 0x00]) 8
      = mhz19_checksum (mhz19_write_command_frame [0xFF, 0x01, 0x86, 0x00, 0x00, 0x00, 0x00, 0x00]) :=
  mhz19_checksum_formula_roundtrip 0xFF 0x01 0x86 0x00 0x00 0x00 0x00 0x00
    (by decide) (by decide) (by decide) (by decide) (by decide) (by decide) (by decide)

/-- Claim C3 (code bug): with gain configured to 16x and a timing byte of 0x00
read back, setup writes 0b0001000 (bit 3), so the bit ORed in for high gain is
NOT the bit position cleared by `timing &= ~0b00010000` (bit 4): the written
byte has bit 4 clear.  The failed-read path correctly marks the driver failed
without writing. -/
theorem tsl2561_setup_gain_bit_bug :
    TSL2561Sensor.setup .gain_16x TSL2561_INTEGRATION_14MS (some 0x00)
      = .wroteTiming 0b0001000
    ∧ Nat.testBit 0b0001000 4 = false
    ∧ (0b0001000 : Nat) ≠ 0b00010000
    ∧ TSL2561Sensor.setup .gain_16x TSL2561_INTEGRATION_14MS none = .failed := by
  refine ⟨by decide, by decide, by decide, rfl⟩

/-- Claim C9 (counterexample): for the 14ms integration code the scheduled
delay is the truncated value 33 ms, not 13.7 + 20 = 33.7 ms, because the float
sum is converted to `uint32_t`. -/
theorem tsl2561_update_delay_truncated :
    (TSL2561Sensor.update TSL2561_INTEGRATION_14MS).timeout_ms = 33
    ∧ TSL2561Sensor.get_integration_time_ms TSL2561_INTEGRATION_14MS + 20 = 33.7
    ∧ ((TSL2561Sensor.update TSL2561_INTEGRATION_14MS).timeout_ms : ℚ) ≠ 33.7 := by
  have h : (TSL2561Sensor.update TSL2561_INTEGRATION_14MS).timeout_ms = 33 := by
    norm_num [TSL2561Sensor.update, TSL2561Sensor.get_integration_time_ms,
      TSL2561_INTEGRATION_14MS]
    decide
  refine ⟨h, by norm_num [TSL2561Sensor.get_integration_time_ms, TSL2561_INTEGRATION_14MS], ?_⟩
  rw [h]
  norm_num

/-- Claim C9 (amended): update writes the power-on command to the control
register and schedules one callback under key "illuminance"; the delay is the
integration-time mapping (14ms→13.7, 101ms→100.0, 402ms→402.0, other→0.0)
plus 20 ms, truncated to whole milliseconds: 33, 120, 422, and 20
respectively. -/
theorem tsl2561_update_schedule (integration_time : Nat)
    (hn0 : integration_time ≠ TSL2561_INTEGRATION_14MS)
    (hn1 : integration_time ≠ TSL2561_INTEGRATION_101MS)
    (hn2 : integration_time ≠ TSL2561_INTEGRATION_402MS) :
    (∀ it : Nat, (TSL2561Sensor.update it).control_write
        = (TSL2561_REGISTER_CONTROL, 0b00000011)
      ∧ (TSL2561Sensor.update it).timeout_key = "illuminance")
    ∧ TSL2561Sensor.get_integration_time_ms TSL2561_INTEGRATION_14MS = 13.7
    ∧ TSL2561Sensor.get_integration_time_ms TSL2561_INTEGRATION_101MS = 100.0
    ∧ TSL2561Sensor.get_integration_time_ms TSL2561_INTEGRATION_402MS = 402.0
    ∧ TSL2561Sensor.get_integration_time_ms integration_time = 0.0
    ∧ (TSL2561Sensor.update TSL2561_INTEGRATION_14MS).timeout_ms = 33
    ∧ (TSL2561Sensor.update TSL2561_INTEGRATION_101MS).timeout_ms = 120
    ∧ (TSL2561Sensor.update TSL2561_INTEGRATION_402MS).timeout_ms = 422
    ∧ (TSL2561Sensor.update integration_time).timeout_ms = 20 := by
  have e14 : TSL2561Sensor.get_integration_time_ms TSL2561_INTEGRATION_14MS = 13.7 := by
    norm_num [TSL2561Sensor.get_integration_time_ms]
  have e101 : TSL2561Sensor.get_integration_time_ms TSL2561_INTEGRATION_101MS = 100.0 := by
    norm_num [TSL2561Sensor.get_integration_time_ms, TSL2561_INTEGRATION_14MS,
      TSL2561_INTEGRATION_101MS]
  have e402 : TSL2561Sensor.get_integration_time_ms TSL2561_INTEGRATION_402MS = 402.0 := by
    norm_num [TSL2561Sensor.get_integration_time_ms, TSL2561_INTEGRATION_14MS,
      TSL2561_INTEGRATION_101MS, TSL2561_INTEGRATION_402MS]
  have eo : TSL2561Sensor.get_integration_time_ms integration_time = 0.0 := by
    simp [TSL2561Sensor.get_integration_time_ms, hn0, hn1, hn2]
  refine ⟨fun it => ⟨rfl, rfl⟩, e14, e101, e402, eo, ?_, ?_, ?_, ?_⟩
  · show (⌊TSL2561Sensor.get_integration_time_ms TSL2561_INTEGRATION_14MS + 20⌋).toNat = 33
    rw [e14]
    norm_num
    decide
  · show (⌊TSL2561Sensor.get_integration_time_ms TSL2561_INTEGRATION_101MS + 20⌋).toNat = 120
    rw [e101]
    norm_num
    decide
  · show (⌊TSL2561Sensor.get_integration_time_ms TSL2561_INTEGRATION_402MS + 20⌋).toNat = 422
    rw [e402]
    norm_num
    decide
  · show (⌊TSL2561Sensor.get_integration_time_ms integration_time + 20⌋).toNat = 20
    rw [eo]
    norm_num
    decide

/-- Witness for the amended claim C9 at the out-of-table code 3. -/
theorem tsl2561_update_schedule_witness :
    ((TSL2561Sensor.update 3).control_write = (TSL2561_REGISTER_CONTROL, 0b00000011)
      ∧ (TSL2561Sensor.update 3).timeout_key = "illuminance")
    ∧ TSL2561Sensor.get_integration_time_ms 3 = 0.0
    ∧ (TSL2561Sensor.update 3).timeout_ms = 20 := by
  have h := tsl2561_update_schedule 3 (by decide) (by decide) (by decide)
  exact ⟨h.1 3, h.2.2.2.2.1, h.2.2.2.2.2.2.2.2⟩

end EsphomeCore

namespace EsphomeCore

/-- Claim C7: a response that passes the preamble check and whose big-endian
bytes 6–7 read the boot sentinel 15000 leaves the driver state completely
unchanged and publishes nothing — no warning is set; and iterating update over
any run of such cycles still leaves the state unchanged. -/
theorem mhz19_boot_guard_idempotent (s : MHZ19State) (r : List Nat) (abc ht : Bool)
    (cycles : List (Option (List Nat) × Bool × Bool))
    (hp0 : byteAt r 0 = 0xFF) (hp1 : byteAt r 1 = 0x86)
    (hu : (byteAt r 6 <<< 8) + byteAt r 7 = 15000)
    (hc : ∀ c ∈ cycles, ∃ rr, c.1 = some rr ∧ byteAt rr 0 = 0xFF ∧ byteAt rr 1 = 0x86
          ∧ (byteAt rr 6 <<< 8) + byteAt rr 7 = 15000) :
    MHZ19Component.update s (some r) abc ht = ⟨s, none, none⟩
    ∧ MHZ19Component.run_updates s cycles = s := by
  have key : ∀ (rr : List Nat) (abc2 ht2 : Bool) (st : MHZ19State),
      byteAt rr 0 = 0xFF → byteAt rr 1 = 0x86 →
      (byteAt rr 6 <<< 8) + byteAt rr 7 = 15000 →
      MHZ19Component.update st (some rr) abc2 ht2 = ⟨st, none, none⟩ := by
    intro rr abc2 ht2 st k0 k1 ku
    simp [MHZ19Component.update, k0, k1, ku]
  refine ⟨key r abc ht s hp0 hp1 hu, ?_⟩
  induction cycles with
  | nil => rfl
  | cons c cs ih =>
    obtain ⟨rr, hr, k0, k1, ku⟩ := hc c (List.mem_cons_self c cs)
    have hstep : (MHZ19Component.update s c.1 c.2.1 c.2.2).state = s := by
      rw [hr, key rr c.2.1 c.2.2 s k0 k1 ku]
    simp only [MHZ19Component.run_updates, List.foldl_cons]
    rw [hstep]
    exact ih (fun c2 h2 => hc c2 (List.mem_cons_of_mem c h2))

/-- Witness for claim C7: a booting response (u = 0x3A98 = 15000) on a fresh
state, once directly and once through a one-cycle run. -/
theorem mhz19_boot_guard_idempotent_witness :
    MHZ19Component.update ⟨false, false, false⟩
      (some [0xFF, 0x86, 0, 0, 0, 0, 0x3A, 0x98, 0]) true true
      = ⟨⟨false, false, false⟩, none, none⟩
    ∧ MHZ19Component.run_updates ⟨false, false, false⟩
      [(some [0xFF, 0x86, 0, 0, 0, 0, 0x3A, 0x98, 0], true, true)]
      = ⟨false, false, false⟩ :=
  mhz19_boot_guard_idempotent ⟨false, false, false⟩ [0xFF, 0x86, 0, 0, 0, 0, 0x3A, 0x98, 0]
    true true [(some [0xFF, 0x86, 0, 0, 0, 0, 0x3A, 0x98, 0], true, true)]
    (by decide) (by decide) (by decide)
    (by
      intro c h2
      simp only [List.mem_singleton] at h2
      subst h2
      exact ⟨[0xFF, 0x86, 0, 0, 0, 0, 0x3A, 0x98, 0], rfl, by decide, by decide, by decide⟩)

/-- Claim C8: on the response FF 86 01 90 28 00 00 00 C1 (correct checksum)
with a successful ABC exchange, update publishes CO₂ = 400 ppm, publishes
temperature 0 exactly when a temperature sink is configured, clears the
warning, and sets the sticky model_b flag (status byte 5 is 0x00) — and
model_b, once true, survives every later update. -/
theorem mhz19_scenario_b :
    (∀ (s : MHZ19State) (ht : Bool),
      MHZ19Component.update s (some [0xFF, 0x86, 0x01, 0x90, 0x28, 0x00, 0x00, 0x00, 0xC1]) true ht
        = ⟨⟨true, true, false⟩, some 400, if ht then some 0 else none⟩)
    ∧ (∀ (s : MHZ19State) (response : Option (List Nat)) (abc ht : Bool),
        s.model_b = true → (MHZ19Component.update s response abc ht).state.model_b = true) := by
  constructor
  · intro s ht
    rcases s with ⟨mb, ad, w⟩
    cases mb <;> cases ad <;> cases w <;> cases ht <;> decide
  · intro s response abc ht hmb
    rcases s with ⟨mb, ad, w⟩
    subst hmb
    cases response with
    | none => rfl
    | some r =>
      simp only [MHZ19Component.update]
      split_ifs <;> simp_all

/-- Witness for the stickiness hypothesis of claim C8: applying the theorem
with model_b already true, over a failing read. -/
theorem mhz19_scenario_b_witness :
    MHZ19Component.update ⟨false, false, false⟩
      (some [0xFF, 0x86, 0x01, 0x90, 0x28, 0x00, 0x00, 0x00, 0xC1]) true true
      = ⟨⟨true, true, false⟩, some 400, some 0⟩
    ∧ (MHZ19Component.update ⟨true, false, false⟩ none true true).state.model_b = true :=
  ⟨mhz19_scenario_b.1 ⟨false, false, false⟩ true,
   mhz19_scenario_b.2 ⟨true, false, false⟩ none true true rfl⟩

/-- Claim C1 (counterexample): the all-zero-payload response FF 86 00…00 with
wrong checksum byte 0 passes the preamble and boot-guard checks and fails the
checksum check, yet update flips the sticky model_b (and abc_disabled) flags —
the state changes beyond the warning bit. -/
theorem mhz19_checksum_fail_mutates_sticky :
    byteAt [0xFF, 0x86, 0, 0, 0, 0, 0, 0, 0] 0 = 0xFF
    ∧ byteAt [0xFF, 0x86, 0, 0, 0, 0, 0, 0, 0] 1 = 0x86
    ∧ (byteAt [0xFF, 0x86, 0, 0, 0, 0, 0, 0, 0] 6 <<< 8)
        + byteAt [0xFF, 0x86, 0, 0, 0, 0, 0, 0, 0] 7 ≠ 15000
    ∧ byteAt [0xFF, 0x86, 0, 0, 0, 0, 0, 0, 0] 8 ≠ mhz19_checksum [0xFF, 0x86, 0, 0, 0, 0, 0, 0, 0]
    ∧ MHZ19Component.update ⟨false, false, false⟩ (some [0xFF, 0x86, 0, 0, 0, 0, 0, 0, 0]) true false
        = ⟨⟨true, true, true⟩, none, none⟩
    ∧ (⟨true, true, true⟩ : MHZ19State).model_b ≠ (⟨false, false, false⟩ : MHZ19State).model_b := by
  decide

/-- Claim C1 (amended): a response that passes preamble and boot-guard but
fails the checksum check sets the warning and publishes nothing; the sticky
flags are not necessarily unchanged — they can be set by the variant-detection
and ABC steps that run before the checksum check — but they are never
cleared.  (The hypothesis on abc/abc_disabled/byte 5 states that the cycle is
not aborted earlier by a failed ABC acknowledgement.) -/
theorem mhz19_checksum_fail_warning_no_publish (s : MHZ19State) (r : List Nat) (abc ht : Bool)
    (hp0 : byteAt r 0 = 0xFF) (hp1 : byteAt r 1 = 0x86)
    (hu : (byteAt r 6 <<< 8) + byteAt r 7 ≠ 15000)
    (habc : abc = true ∨ s.abc_disabled = true ∨ (s.model_b = false ∧ byteAt r 5 ≠ 0))
    (hcs : byteAt r 8 ≠ mhz19_checksum r) :
    (MHZ19Component.update s (some r) abc ht).state.warning = true
    ∧ (MHZ19Component.update s (some r) abc ht).co2 = none
    ∧ (MHZ19Component.update s (some r) abc ht).temperature = none
    ∧ (s.model_b = true → (MHZ19Component.update s (some r) abc ht).state.model_b = true)
    ∧ (s.abc_disabled = true → (MHZ19Component.update s (some r) abc ht).state.abc_disabled = true) := by
  rcases s with ⟨mb, ad, w⟩
  simp only [MHZ19Component.update]
  cases mb <;> cases ad <;> cases abc <;> by_cases h5 : byteAt r 5 = 0 <;>
    simp_all

/-- Witness for the amended claim C1: sticky flags already set, status byte 1,
checksum byte wrong. -/
theorem mhz19_checksum_fail_warning_no_publish_witness :
    (MHZ19Component.update ⟨true, true, false⟩ (some [0xFF, 0x86, 0, 0, 0, 1, 0, 0, 5]) true false).state.warning = true
    ∧ (MHZ19Component.update ⟨true, true, false⟩ (some [0xFF, 0x86, 0, 0, 0, 1, 0, 0, 5]) true false).co2 = none
    ∧ (MHZ19Component.update ⟨true, true, false⟩ (some [0xFF, 0x86, 0, 0, 0, 1, 0, 0, 5]) true false).temperature = none
    ∧ ((⟨true, true, false⟩ : MHZ19State).model_b = true →
        (MHZ19Component.update ⟨true, true, false⟩ (some [0xFF, 0x86, 0, 0, 0, 1, 0, 0, 5]) true false).state.model_b = true)
    ∧ ((⟨true, true, false⟩ : MHZ19State).abc_disabled = true →
        (MHZ19Component.update ⟨true, true, false⟩ (some [0xFF, 0x86, 0, 0, 0, 1, 0, 0, 5]) true false).state.abc_disabled = true) :=
  mhz19_checksum_fail_warning_no_publish ⟨true, true, false⟩ [0xFF, 0x86, 0, 0, 0, 1, 0, 0, 5]
    true false (by decide) (by decide) (by decide) (Or.inl rfl) (by decide)

/-- Claim C2 (counterexample): when the disable-ABC acknowledgement cannot be
read (a transient communication failure), the cycle aborts with abc_disabled
unset but the warning flag is NOT set, contradicting the claim that every such
failure sets the warning. -/
theorem mhz19_abc_ack_fail_no_warning :
    MHZ19Component.update ⟨false, false, false⟩ (some [0xFF, 0x86, 0, 0, 0, 0, 0, 1, 0]) false false
      = ⟨⟨true, false, false⟩, none, none⟩
    ∧ (MHZ19Component.update ⟨false, false, false⟩ (some [0xFF, 0x86, 0, 0, 0, 0, 0, 1, 0]) false false).state.warning ≠ true := by
  decide

/-- Claim C2 (amended): a failed main read/write sets warning and aborts; a
failed preamble sets warning and aborts; a failed checksum (when reached) sets
warning and aborts; but a failed ABC-disable acknowledgement aborts the cycle
with abc_disabled left unset and the warning flag UNCHANGED rather than
set. -/
theorem mhz19_transient_failure_handling (s : MHZ19State) (r : List Nat) (abc ht : Bool) :
    (MHZ19Component.update s none abc ht = ⟨{ s with warning := true }, none, none⟩)
    ∧ (byteAt r 0 ≠ 0xFF ∨ byteAt r 1 ≠ 0x86 →
        MHZ19Component.update s (some r) abc ht = ⟨{ s with warning := true }, none, none⟩)
    ∧ (byteAt r 0 = 0xFF → byteAt r 1 = 0x86 →
        (byteAt r 6 <<< 8) + byteAt r 7 ≠ 15000 →
        (s.model_b = true ∨ byteAt r 5 = 0) → s.abc_disabled = false → abc = false →
        MHZ19Component.update s (some r) abc ht = ⟨⟨true, false, s.warning⟩, none, none⟩)
    ∧ (byteAt r 0 = 0xFF → byteAt r 1 = 0x86 →
        (byteAt r 6 <<< 8) + byteAt r 7 ≠ 15000 →
        (abc = true ∨ s.abc_disabled = true ∨ (s.model_b = false ∧ byteAt r 5 ≠ 0)) →
        byteAt r 8 ≠ mhz19_checksum r →
        (MHZ19Component.update s (some r) abc ht).state.warning = true
        ∧ (MHZ19Component.update s (some r) abc ht).co2 = none
        ∧ (MHZ19Component.update s (some r) abc ht).temperature = none) := by
  refine ⟨rfl, ?_, ?_, ?_⟩
  · intro hbad
    simp [MHZ19Component.update, hbad]
  · intro hp0 hp1 hu hm hd habc
    rcases s with ⟨mb, ad, w⟩
    simp only [MHZ19Component.update]
    rcases hm with hm | hm <;> cases mb <;> simp_all
  · intro hp0 hp1 hu habc hcs
    rcases s with ⟨mb, ad, w⟩
    simp only [MHZ19Component.update]
    cases mb <;> cases ad <;> cases abc <;> by_cases h5 : byteAt r 5 = 0 <;>
      simp_all

/-- Witness for the amended claim C2, exercising all four failure branches at
concrete inputs. -/
theorem mhz19_transient_failure_handling_witness :
    MHZ19Component.update ⟨false, false, false⟩ none true true = ⟨⟨false, false, true⟩, none, none⟩
    ∧ MHZ19Component.update ⟨false, false, false⟩ (some [0x00]) true true
        = ⟨⟨false, false, true⟩, none, none⟩
    ∧ MHZ19Component.update ⟨false, false, false⟩ (some [0xFF, 0x86, 0, 0, 0, 0, 0, 1, 0]) false false
        = ⟨⟨true, false, false⟩, none, none⟩
    ∧ (MHZ19Component.update ⟨true, true, false⟩ (some [0xFF, 0x86, 0, 0, 0, 1, 0, 0, 5]) true false).state.warning = true :=
  ⟨(mhz19_transient_failure_handling ⟨false, false, false⟩ [] true true).1,
   (mhz19_transient_failure_handling ⟨false, false, false⟩ [0x00] true true).2.1 (by decide),
   (mhz19_transient_failure_handling ⟨false, false, false⟩ [0xFF, 0x86, 0, 0, 0, 0, 0, 1, 0] false false).2.2.1
     (by decide) (by decide) (by decide) (Or.inr (by decide)) rfl rfl,
   ((mhz19_transient_failure_handling ⟨true, true, false⟩ [0xFF, 0x86, 0, 0, 0, 1, 0, 0, 5] true false).2.2.2
     (by decide) (by decide) (by decide) (Or.inl rfl) (by decide)).1⟩

end EsphomeCore

namespace EsphomeCore

/-- Claim C4: branch selection of the lux formula uses strict upper-bound
thresholds: any ratio at or above 1.30 gives 0.0 for both packages; for the CS
package a ratio of exactly 0.52 takes the second branch 0.0229·d0 − 0.0291·d1
(not the first); and the standard package below ratio 0.5 gives
0.0304·d0 − 0.062·d0·ratio^1.4, e.g. gain 16x, 101 ms, ch0=1000, ch1=300 has
d0 = 4020 and ratio 0.3. -/
theorem tsl2561_lux_branch_selection (pw : ℚ → ℚ) (gain : TSL2561Gain)
    (integration_time : Nat) (ch0 ch1 : Nat)
    (h0 : ch0 ≠ 0xFFFF) (h1 : ch1 ≠ 0xFFFF) (hz : ch0 ≠ 0)
    (hr : (1.30 : ℚ) ≤ (ch1 : ℚ) / (ch0 : ℚ)) :
    TSL2561Sensor.calculate_lx pw gain integration_time true ch0 ch1 = some 0.0
    ∧ TSL2561Sensor.calculate_lx pw gain integration_time false ch0 ch1 = some 0.0
    ∧ TSL2561Sensor.calculate_lx pw .gain_16x TSL2561_INTEGRATION_402MS true 100 52
        = some (0.0229 * 100 - 0.0291 * 52)
    ∧ TSL2561Sensor.calculate_lx pw .gain_16x TSL2561_INTEGRATION_101MS false 1000 300
        = some (0.0304 * 4020 - 0.062 * 4020 * pw (3 / 10)) := by
  have hz2 : ((ch0 : ℚ)) ≠ 0 := Nat.cast_ne_zero.mpr hz
  have hfd : floatDiv (ch1 : ℚ) (ch0 : ℚ) = .fin ((ch1 : ℚ) / (ch0 : ℚ)) := by
    rw [floatDiv, if_neg hz2]
  have hb : ∀ c : ℚ, c ≤ 1.30 → FloatRatio.lt (.fin ((ch1 : ℚ) / (ch0 : ℚ))) c = false := by
    intro c hc
    simp only [FloatRatio.lt, decide_eq_false_iff_not, not_lt]
    linarith
  refine ⟨?_, ?_, ?_, ?_⟩
  · simp only [TSL2561Sensor.calculate_lx]
    rw [if_neg (by simp [h0, h1])]
    simp only [hfd, hb 0.52 (by norm_num), hb 0.65 (by norm_num), hb 0.80 (by norm_num),
      hb 1.30 (by norm_num)]
    simp
  · simp only [TSL2561Sensor.calculate_lx]
    rw [if_neg (by simp [h0, h1])]
    simp only [hfd, hb 0.5 (by norm_num), hb 0.61 (by norm_num), hb 0.80 (by norm_num),
      hb 1.30 (by norm_num)]
    simp
  · norm_num [TSL2561Sensor.calculate_lx, floatDiv, FloatRatio.lt, FloatRatio.toQ,
      TSL2561Sensor.get_integration_time_ms, TSL2561_INTEGRATION_402MS,
      TSL2561_INTEGRATION_14MS, TSL2561_INTEGRATION_101MS]
    rw [if_neg (by decide), if_neg (by decide)]
    norm_num
  · norm_num [TSL2561Sensor.calculate_lx, floatDiv, FloatRatio.lt, FloatRatio.toQ,
      TSL2561Sensor.get_integration_time_ms, TSL2561_INTEGRATION_402MS,
      TSL2561_INTEGRATION_14MS, TSL2561_INTEGRATION_101MS]
    rw [if_neg (by decide), if_neg (by decide)]

/-- Witness for claim C4 at ch0 = 100, ch1 = 130 (ratio exactly 1.30). -/
theorem tsl2561_lux_branch_selection_witness :
    TSL2561Sensor.calculate_lx (fun q => q) .gain_1x TSL2561_INTEGRATION_14MS true 100 130
      = some 0.0
    ∧ TSL2561Sensor.calculate_lx (fun q => q) .gain_1x TSL2561_INTEGRATION_14MS false 100 130
      = some 0.0 := by
  have h := tsl2561_lux_branch_selection (fun q => q) .gain_1x TSL2561_INTEGRATION_14MS 100 130
    (by decide) (by decide) (by decide) (by norm_num)
  exact ⟨h.1, h.2.1⟩

end EsphomeCore
